import Mathlib

/-!
Verification of the aiowuds Windows AF_UNIX asyncio bridge.

The repository has two parallel implementations:
* `win_asyncio_afunix.py` — `AFUnixServerWin`, `AFUnixStream`,
  `open_unix_connection_win`;
* `win_unix_asyncio.py` — `WindowsUnixServer`, `open_unix_connection`
  (Winsock ctypes fallback path).

We shallowly embed the control flow of the relevant functions.  Native
Winsock calls, the proactor wait primitive and the filesystem are modelled
by explicit oracle records supplying the result of each native call; the
embedded functions compute the result value, the sequence of observable
actions, and the final resource state (which handles were closed).
-/

namespace Aiowuds

/-- `SUN_PATH_MAX = 108` in `win_asyncio_afunix.py`; `UNIX_PATH_MAX = 108`
in `win_unix_asyncio.py`.  The fixed capacity of the `sun_path` buffer. -/
def SUN_PATH_MAX : Nat := 108

/-- Both modules patch `socket.AF_UNIX = 1` when absent; the family value
written into the address record. -/
def AF_UNIX : Nat := 1

/-- Winsock error code 10035, `WSAEWOULDBLOCK` (non-blocking connect in
progress), from the comment at `win_asyncio_afunix.py` line 282. -/
def WSAEWOULDBLOCK : Nat := 10035

/-- `FD_ACCEPT = 0x08` interest/event bit. -/
def FD_ACCEPT : Nat := 0x08

/-- `FD_CLOSE = 0x20` interest/event bit. -/
def FD_CLOSE : Nat := 0x20

/-! ## Address encoding

Both modules build the `sockaddr_un`-like record inline, with the ctypes
idiom

```python
addr = Sockaddr()                  # zero-initialised by ctypes
addr.sun_family = socket.AF_UNIX
enc = path.encode("utf-8")
if len(enc) >= SUN_PATH_MAX: raise ...
tmp = bytearray(addr.sun_path)     # c_char array getattr: bytes up to NUL
tmp[:len(enc)] = enc               # bytearray slice assignment
addr.sun_path = bytes(tmp)         # c_char array setattr: copy over buffer
```

We model bytes as `List Nat` and each ctypes/bytearray primitive as its own
function. -/

/-- ctypes getattr on a `c_char * N` structure field: yields the stored
bytes truncated at the first NUL byte. -/
def cCharArrayGet (buf : List Nat) : List Nat :=
  buf.takeWhile (fun b => b != 0)

/-- Python `tmp[:len(enc)] = enc` on a bytearray: the first `enc.length`
bytes are replaced by `enc` (growing `tmp` when it is shorter). -/
def sliceAssign (tmp enc : List Nat) : List Nat :=
  enc ++ tmp.drop enc.length

/-- ctypes setattr of a bytes value (of length ≤ N) into a `c_char * N`
field: the value is copied over the start of the buffer and a NUL
terminator is written after it; the bytes beyond stay as they were in the
underlying (here freshly zeroed) storage.  Since the storage is all zeros
past the copied value, writing the terminator is absorbed. -/
def cCharArraySet (prior newBytes : List Nat) : List Nat :=
  newBytes ++ prior.drop newBytes.length

/-- The freshly zero-initialised `sun_path` storage of a new `Sockaddr()`. -/
def zeroBuf : List Nat := List.replicate SUN_PATH_MAX 0

/-- The address record: `sun_family` + fixed 108-byte `sun_path` buffer. -/
structure Sockaddr where
  sun_family : Nat
  sun_path : List Nat
deriving DecidableEq, Repr

/-- Failure of the address encoding: the `ValueError("... path too long")`
raised by both modules. -/
inductive EncodeError where
  | pathTooLong
deriving DecidableEq, Repr

/-- The inline address-encoding sequence of `AFUnixServerWin.__init__`
(lines 155–163) and `open_unix_connection_win` (lines 269–277) of
`win_asyncio_afunix.py`, on the UTF-8 bytes of the path. -/
def encodePath (enc : List Nat) : Except EncodeError Sockaddr :=
  if SUN_PATH_MAX ≤ enc.length then
    .error .pathTooLong
  else
    .ok { sun_family := AF_UNIX,
          sun_path := cCharArraySet zeroBuf (sliceAssign (cCharArrayGet zeroBuf) enc) }

/-- The `for i in range(UNIX_PATH_MAX): tmp[i:i] = b"\x00"` loop of
`open_unix_connection` (`win_unix_asyncio.py` lines 292–293): each step
INSERTS a zero byte at index `i` (it does not overwrite). -/
def wuaClearBuffer (tmp : List Nat) : List Nat :=
  (List.range SUN_PATH_MAX).foldl (fun acc i => acc.insertIdx i 0) tmp

/-- The inline address-encoding sequence of the ctypes fallback path of
`open_unix_connection` (`win_unix_asyncio.py` lines 283–296), including its
extra clear-buffer insertion loop. -/
def wuaEncodePath (enc : List Nat) : Except EncodeError Sockaddr :=
  if SUN_PATH_MAX ≤ enc.length then
    .error .pathTooLong
  else
    .ok { sun_family := AF_UNIX,
          sun_path := cCharArraySet zeroBuf
            (sliceAssign (wuaClearBuffer (cCharArrayGet zeroBuf)) enc) }

/-- `true` iff the encoding succeeded. -/
def encodeOk : Except EncodeError Sockaddr → Bool
  | .ok _ => true
  | .error _ => false

/-- Characterisation lemma: the ctypes pipeline on a path of byte length
`L < 108` produces the path bytes followed by `108 − L` zero bytes. -/
theorem encodePath_eq (enc : List Nat) :
    encodePath enc =
      if SUN_PATH_MAX ≤ enc.length then .error .pathTooLong
      else .ok { sun_family := AF_UNIX,
                 sun_path := enc ++ List.replicate (SUN_PATH_MAX - enc.length) 0 } := by
  unfold encodePath cCharArraySet sliceAssign cCharArrayGet zeroBuf
  split
  · rfl
  · simp [List.takeWhile_replicate, List.drop_replicate]

/-! ## Client connector, `win_asyncio_afunix.open_unix_connection_win`

The function (lines 251–310) creates a non-blocking socket and a native
event, registers `FD_CONNECT | FD_CLOSE`, issues `ws2_32.connect`, awaits
the proactor handle wait, queries the network events and either returns an
`AFUnixStream` or raises.  A `try/finally` closes the event on every path
after its creation; the socket is closed explicitly on some error paths.
The results of the native calls are given by an oracle. -/

/-- Oracle for the native calls made by `open_unix_connection_win`. -/
structure ConnOracle where
  /-- `WSACreateEvent()` returned a non-NULL handle. -/
  createEventOk : Bool
  /-- return value of `WSAEventSelect` (0 = success). -/
  eventSelectRet : Nat
  /-- `WSAGetLastError()` after a failing `WSAEventSelect`. -/
  eventSelectErr : Nat
  /-- return value of `ws2_32.connect` (0 = immediate success). -/
  connectRet : Nat
  /-- `WSAGetLastError()` after a nonzero `connect` return. -/
  connectErr : Nat
  /-- the running loop exposes a `_proactor`. -/
  proactorPresent : Bool
  /-- return value of `WSAEnumNetworkEvents` (0 = success). -/
  enumRet : Nat
  /-- `WSAGetLastError()` after a failing `WSAEnumNetworkEvents`. -/
  enumErr : Nat
  /-- `FD_CONNECT` is set in the enumerated `lNetworkEvents` mask. -/
  fdConnectSignaled : Bool
  /-- `iErrorCode[FD_CONNECT_BIT]` (0 = connect completed successfully). -/
  fdConnectErr : Nat
deriving DecidableEq, Repr

/-- What `open_unix_connection_win` returns / raises. -/
inductive ConnResult where
  /-- returned a live `AFUnixStream`. -/
  | connected
  /-- `OSError("WSACreateEvent failed for connect")`. -/
  | createEventFailed
  /-- `OSError` from `_check_zero` on `WSAEventSelect`, carrying the code. -/
  | eventSelectFailed (code : Nat)
  /-- `ValueError` path-too-long. -/
  | pathTooLong
  /-- `OSError(err, "ws2_32.connect failed")` for a non-10035 error. -/
  | connectFailed (code : Nat)
  /-- `RuntimeError` — no proactor on the loop. -/
  | noProactor
  /-- `OSError` from `_check_zero` on `WSAEnumNetworkEvents`. -/
  | enumFailed (code : Nat)
  /-- nonzero `iErrorCode[FD_CONNECT_BIT]` after the wait. -/
  | completionFailed (code : Nat)
deriving DecidableEq, Repr

/-- Result together with the final resource/flow state of the call. -/
structure ConnOutcome where
  result : ConnResult
  /-- `sock.close()` was called before the function returned/raised. -/
  sockClosed : Bool
  /-- `WSACloseEvent(connect_event)` was called. -/
  eventClosed : Bool
  /-- `await proactor.wait_for_handle(connect_event)` was performed. -/
  waited : Bool
deriving DecidableEq, Repr

/-- Control flow of `open_unix_connection_win` (`win_asyncio_afunix.py`
lines 251–310) on a path with UTF-8 bytes `enc`, under oracle `o`.  The
`try/finally` closes the event on every path after its successful
creation, including the success path.  Note that the `OSError`s raised by
`_check_zero` for `WSAEventSelect` / `WSAEnumNetworkEvents` propagate
without any `sock.close()` call. -/
def open_unix_connection_win (enc : List Nat) (o : ConnOracle) : ConnOutcome :=
  if !o.createEventOk then
    { result := .createEventFailed, sockClosed := true,
      eventClosed := false, waited := false }
  else if o.eventSelectRet != 0 then
    { result := .eventSelectFailed o.eventSelectErr, sockClosed := false,
      eventClosed := true, waited := false }
  else if SUN_PATH_MAX ≤ enc.length then
    { result := .pathTooLong, sockClosed := true,
      eventClosed := true, waited := false }
  else if o.connectRet != 0 && o.connectErr != WSAEWOULDBLOCK then
    { result := .connectFailed o.connectErr, sockClosed := true,
      eventClosed := true, waited := false }
  else if !o.proactorPresent then
    { result := .noProactor, sockClosed := true,
      eventClosed := true, waited := false }
  else if o.enumRet != 0 then
    { result := .enumFailed o.enumErr, sockClosed := false,
      eventClosed := true, waited := true }
  else if o.fdConnectSignaled && o.fdConnectErr != 0 then
    { result := .completionFailed o.fdConnectErr, sockClosed := true,
      eventClosed := true, waited := true }
  else
    { result := .connected, sockClosed := false,
      eventClosed := true, waited := true }

/-! ## Client connector, `win_unix_asyncio.open_unix_connection`
(Winsock ctypes fallback path, lines 274–321)

This path creates a raw (blocking) Winsock socket handle, encodes the
address, calls `ws2_32.connect`, and on ANY nonzero return closes the
socket and raises.  No readiness event is created and no wait is
performed. -/

/-- Oracle for the native calls of the fallback connector. -/
structure WuaConnOracle where
  /-- `ws2_32.socket` returned a valid handle (not 0 / −1). -/
  socketOk : Bool
  /-- `WSAGetLastError()` after a failing `ws2_32.socket`. -/
  socketErr : Nat
  /-- return value of `ws2_32.connect` (0 = success). -/
  connectRet : Nat
  /-- `WSAGetLastError()` after a nonzero `connect` return. -/
  connectErr : Nat
  /-- wrapping the handle into `socket.socket(fileno=...)` succeeded. -/
  wrapOk : Bool
deriving DecidableEq, Repr

/-- What the fallback connector returns / raises. -/
inductive WuaConnResult where
  /-- returned `(reader, writer)`. -/
  | connected
  /-- `OSError("WSA socket() failed")`. -/
  | socketFailed (code : Nat)
  /-- `ValueError("socket path too long")`. -/
  | pathTooLong
  /-- `OSError("ws2_32.connect failed ...")` for ANY nonzero return. -/
  | connectFailed (code : Nat)
  /-- re-raised wrap exception. -/
  | wrapFailed
deriving DecidableEq, Repr

/-- Result plus whether `closesocket` was called on the raw handle. -/
structure WuaConnOutcome where
  result : WuaConnResult
  sockClosed : Bool
deriving DecidableEq, Repr

/-- Control flow of the ctypes fallback path of `open_unix_connection`
(`win_unix_asyncio.py` lines 274–321) on path bytes `enc` under oracle
`o`.  `if ret != 0: ... closesocket; raise` makes EVERY nonzero connect
return an error — there is no `WSAEWOULDBLOCK` exemption and no readiness
wait on this path. -/
def wua_open_unix_connection (enc : List Nat) (o : WuaConnOracle) : WuaConnOutcome :=
  if !o.socketOk then
    { result := .socketFailed o.socketErr, sockClosed := false }
  else if SUN_PATH_MAX ≤ enc.length then
    { result := .pathTooLong, sockClosed := true }
  else if o.connectRet != 0 then
    { result := .connectFailed o.connectErr, sockClosed := true }
  else if !o.wrapOk then
    { result := .wrapFailed, sockClosed := true }
  else
    { result := .connected, sockClosed := false }

/-! ## Server accept loops

One wake-up of an accept loop is one iteration of the `while` body after
the proactor wait resolves.  The native accept queue is a list of pending
client handles; `ws2_32.accept` returns its head, or no-connection
(`INVALID_SOCKET` in `win_asyncio_afunix.py`, `-1`/`0` in
`win_unix_asyncio.py`) when it is empty.  Observable actions record each
accept call and how the handler is invoked for an accepted connection:
`createTask h` is fire-and-forget scheduling (`asyncio.create_task` /
`loop.create_task`), `awaitTask h` would be a blocking `await` of the
handler (which neither source performs). -/

/-- Observable actions of one accept-loop wake-up. -/
inductive SrvAction where
  /-- `ws2_32.accept(...)` was invoked. -/
  | acceptCall
  /-- the handler for accepted handle `h` was scheduled, not awaited. -/
  | createTask (h : Nat)
  /-- the handler for handle `h` was awaited inline (never emitted). -/
  | awaitTask (h : Nat)
  /-- the loop `break`s (terminal). -/
  | breakLoop
deriving DecidableEq, Repr

/-- The inner drain loop of `AFUnixServerWin._accept_loop`
(`win_asyncio_afunix.py` lines 204–217): `while True: accept;` stop at
`INVALID_SOCKET`, otherwise wrap the handle into an `AFUnixStream` and
schedule the handler with `asyncio.create_task`, without awaiting it. -/
def afunixDrain : List Nat → List SrvAction
  | [] => [.acceptCall]
  | h :: t => .acceptCall :: .createTask h :: afunixDrain t

/-- One wake-up of `AFUnixServerWin._accept_loop` (lines 192–217) after
`wait_for_handle` resolved and `WSAEnumNetworkEvents` succeeded with event
mask `ev`: on `FD_CLOSE` break; on `FD_ACCEPT` drain the queue. -/
def afunixWakeup (ev : Nat) (queue : List Nat) : List SrvAction :=
  if ev &&& FD_CLOSE != 0 then
    [.breakLoop]
  else if ev &&& FD_ACCEPT != 0 then
    afunixDrain queue
  else
    []

/-- One wake-up of `WindowsUnixServer._accept_loop`
(`win_unix_asyncio.py` lines 192–224) after `wait_for_handle` resolved:
a SINGLE `ws2_32.accept` call; on `-1`/`0` just continue, otherwise wrap
the one handle and schedule the handler with `loop.create_task`, then the
`while` loop returns to creating an event and waiting again. -/
def wuaWakeup (queue : List Nat) : List SrvAction :=
  match queue with
  | [] => [.acceptCall]
  | h :: _ => [.acceptCall, .createTask h]

/-- The handle dispatched by a `createTask` action, if any. -/
def taskOf : SrvAction → Option Nat
  | .createTask h => some h
  | _ => none

/-- Is this action an `acceptCall`? -/
def isAcceptCall : SrvAction → Bool
  | .acceptCall => true
  | _ => false

/-- Is this action an inline `awaitTask`? -/
def isAwaitTask : SrvAction → Bool
  | .awaitTask _ => true
  | _ => false

/-! ## `AFUnixStream` (connection endpoint wrapper) -/

/-- Actions of the stream wrapper on its underlying socket. -/
inductive StreamAction where
  /-- `self.sock.shutdown(socket.SHUT_RDWR)` (best-effort). -/
  | shutdownCall
  /-- `self.sock.close()`. -/
  | closeCall
  /-- `await self.loop.sock_recv(self.sock, n)`. -/
  | sockRecvCall (n : Nat)
deriving DecidableEq, Repr

/-- Wrapper state of `AFUnixStream`: just the `_closed` flag. -/
structure AFUnixStream where
  closed : Bool
deriving DecidableEq, Repr

/-- `AFUnixStream.close` (`win_asyncio_afunix.py` lines 114–121): when not
yet closed, best-effort shutdown (its `OSError` swallowed), close the
socket, set `_closed`; when already closed, do nothing.  Returns the new
state and the socket actions performed; the method never raises. -/
def AFUnixStream.close (s : AFUnixStream) : AFUnixStream × List StreamAction :=
  if !s.closed then
    ({ closed := true }, [.shutdownCall, .closeCall])
  else
    (s, [])

/-- `AFUnixStream.recv` (`win_asyncio_afunix.py` lines 104–107): on a
closed stream return `b""` at once; otherwise await `sock_recv`, whose
bytes are supplied by the oracle `sockBytes`.  Returns the received bytes
and the socket actions performed. -/
def AFUnixStream.recv (s : AFUnixStream) (n : Nat) (sockBytes : List Nat) :
    List Nat × List StreamAction :=
  if s.closed then
    ([], [])
  else
    (sockBytes, [.sockRecvCall n])

/-! ## Server construction and start, `AFUnixServerWin` -/

/-- Observable actions of `AFUnixServerWin.__init__`. -/
inductive InitAction where
  /-- `os.unlink(path)` on the pre-existing entry. -/
  | unlinkCall
  /-- `ws2_32.bind(...)`. -/
  | bindCall
  /-- `self.sock.listen(backlog)`. -/
  | listenCall
  /-- `ws2_32.WSACreateEvent()`. -/
  | createEventCall
  /-- `ws2_32.WSAEventSelect(..., FD_ACCEPT | FD_CLOSE)`. -/
  | eventSelectCall
deriving DecidableEq, Repr

/-- Failures of `AFUnixServerWin.__init__`. -/
inductive InitError where
  | pathTooLong
  | bindFailed
  | eventCreateFailed
  | eventSelectFailed
deriving DecidableEq, Repr

/-- Oracle for the native event calls of `__init__`. -/
structure InitOracle where
  /-- `WSACreateEvent()` returned a non-NULL handle. -/
  createEventOk : Bool
  /-- return value of `WSAEventSelect` (0 = success). -/
  eventSelectRet : Nat
deriving DecidableEq, Repr

/-- Result of constructing the server. -/
structure InitOutcome where
  result : Except InitError Unit
  /-- whether a filesystem entry exists at `path` afterwards. -/
  fsFinal : Bool
  trace : List InitAction
deriving Repr

/-- `AFUnixServerWin.__init__` (`win_asyncio_afunix.py` lines 135–178) on
path bytes `enc`, where `fsExists` says whether a filesystem entry already
exists at `path`.  OS model for AF_UNIX binding: `ws2_32.bind` fails when
an entry already exists at the path, and creates the entry on success
(standard Unix-domain-socket semantics, the situation the module's
`unlink_existing` cleanup exists for). -/
def AFUnixServerWin.init (enc : List Nat) (unlink_existing fsExists : Bool)
    (o : InitOracle) : InitOutcome :=
  let fs1 := if unlink_existing && fsExists then false else fsExists
  let t0 : List InitAction := if unlink_existing && fsExists then [.unlinkCall] else []
  if SUN_PATH_MAX ≤ enc.length then
    { result := .error .pathTooLong, fsFinal := fs1, trace := t0 }
  else if fs1 then
    { result := .error .bindFailed, fsFinal := fs1, trace := t0 ++ [.bindCall] }
  else if !o.createEventOk then
    { result := .error .eventCreateFailed, fsFinal := true,
      trace := t0 ++ [.bindCall, .listenCall, .createEventCall] }
  else if o.eventSelectRet != 0 then
    { result := .error .eventSelectFailed, fsFinal := true,
      trace := t0 ++ [.bindCall, .listenCall, .createEventCall, .eventSelectCall] }
  else
    { result := .ok (), fsFinal := true,
      trace := t0 ++ [.bindCall, .listenCall, .createEventCall, .eventSelectCall] }

/-- Task-tracking state of a constructed `AFUnixServerWin`: the `_task`
attribute (`None` until `start`). -/
structure ServerRunState where
  task : Option Nat
deriving DecidableEq, Repr

/-- `AFUnixServerWin.start` (`win_asyncio_afunix.py` lines 180–184): raise
`RuntimeError("Server already started")` when `_task` is already set,
otherwise create the accept-loop task (id `tid`) and store it. -/
def AFUnixServerWin.start (s : ServerRunState) (tid : Nat) :
    Except String ServerRunState :=
  if s.task.isSome then
    .error "Server already started"
  else
    .ok { task := some tid }

/-! ## Helper lemmas -/

/-- The insertion "clear" loop of the fallback connector, run on the empty
byte string that ctypes getattr yields for the fresh buffer, produces
exactly the 108 zero bytes. -/
theorem wuaClearBuffer_empty : wuaClearBuffer (cCharArrayGet zeroBuf) = zeroBuf := by
  decide

/-- The fallback module's inline encoding agrees with the afunix one. -/
theorem wuaEncodePath_eq_encodePath (enc : List Nat) :
    wuaEncodePath enc = encodePath enc := by
  unfold wuaEncodePath encodePath
  split
  · rfl
  · rw [wuaClearBuffer_empty]
    unfold cCharArraySet sliceAssign cCharArrayGet zeroBuf
    rename_i h
    have hlen : enc.length ≤ SUN_PATH_MAX := Nat.le_of_lt (Nat.lt_of_not_le h)
    simp [List.takeWhile_replicate, List.drop_replicate, Nat.add_sub_cancel' hlen]

/-- In the drain loop every accepted handle is scheduled, in queue order. -/
theorem afunixDrain_tasks (q : List Nat) : (afunixDrain q).filterMap taskOf = q := by
  induction q with
  | nil => rfl
  | cons h t ih => simp [afunixDrain, taskOf, ih]

/-- The drain loop calls `accept` once per queued connection plus the
final call that reports no connection. -/
theorem afunixDrain_acceptCalls (q : List Nat) :
    (afunixDrain q).countP isAcceptCall = q.length + 1 := by
  induction q with
  | nil => rfl
  | cons h t ih => simp [afunixDrain, List.countP_cons, isAcceptCall, ih]

/-- The drain loop never awaits a handler inline. -/
theorem afunixDrain_no_await (q : List Nat) :
    (afunixDrain q).countP isAwaitTask = 0 := by
  induction q with
  | nil => rfl
  | cons h t ih => simp [afunixDrain, List.countP_cons, isAwaitTask, ih]

/-- An all-success oracle for `open_unix_connection_win`, used as the base
of concrete test points. -/
def connOracleAllOk : ConnOracle :=
  { createEventOk := true, eventSelectRet := 0, eventSelectErr := 0,
    connectRet := 0, connectErr := 0, proactorPresent := true,
    enumRet := 0, enumErr := 0, fdConnectSignaled := true, fdConnectErr := 0 }

/-- Does a `ConnResult` carry a `connectFailed` error? -/
def ConnResult.isConnectFailed : ConnResult → Bool
  | .connectFailed _ => true
  | _ => false

/-! ## Claims -/

/-- C1, counterexample: the claim says every path of encoded length
≥ capacity−1 = 107 fails with PathTooLong, but the code only rejects
length ≥ 108: a 107-byte path (107 times `'a'`) encodes successfully. -/
theorem C1_length107_encodes :
    SUN_PATH_MAX - 1 ≤ (List.replicate 107 97).length ∧
    encodeOk (encodePath (List.replicate 107 97)) = true := by
  decide

/-- C1 (amended): in both modules, address encoding succeeds exactly for
paths whose UTF-8 byte length is < capacity = 108 (i.e. ≤ 107, leaving at
least one NUL byte), producing the path bytes without truncation; it fails
with PathTooLong exactly for length ≥ 108. -/
theorem C1_encode_boundary (enc : List Nat) :
    (enc.length < SUN_PATH_MAX →
      encodePath enc =
        .ok { sun_family := AF_UNIX,
              sun_path := enc ++ List.replicate (SUN_PATH_MAX - enc.length) 0 } ∧
      wuaEncodePath enc = encodePath enc) ∧
    (SUN_PATH_MAX ≤ enc.length →
      encodePath enc = .error .pathTooLong ∧
      wuaEncodePath enc = .error .pathTooLong) := by
  constructor
  · intro h
    refine ⟨?_, wuaEncodePath_eq_encodePath enc⟩
    rw [encodePath_eq, if_neg (Nat.not_le.mpr h)]
  · intro h
    have h1 : encodePath enc = .error .pathTooLong := by
      rw [encodePath_eq, if_pos h]
    exact ⟨h1, by rw [wuaEncodePath_eq_encodePath, h1]⟩

/-- C1 witness: a 3-byte path encodes to the path plus 105 zero bytes, and
a 108-byte path is rejected as PathTooLong. -/
theorem C1_encode_boundary_witness :
    encodePath [97, 98, 99] =
      .ok { sun_family := AF_UNIX,
            sun_path := [97, 98, 99] ++ List.replicate (SUN_PATH_MAX - 3) 0 } ∧
    encodePath (List.replicate 108 97) = .error .pathTooLong := by
  constructor
  · exact ((C1_encode_boundary [97, 98, 99]).1 (by decide)).1
  · exact ((C1_encode_boundary (List.replicate 108 97)).2 (by decide)).1

/-- C7 (confirmed): every successful encoding carries the target address
family, fills the full 108-byte buffer, holds the path bytes untruncated,
and every byte of the buffer beyond the encoded path is zero. -/
theorem C7_encode_zero_fill (enc : List Nat) (addr : Sockaddr)
    (henc : encodePath enc = .ok addr) :
    addr.sun_family = AF_UNIX ∧
    addr.sun_path.length = SUN_PATH_MAX ∧
    addr.sun_path.take enc.length = enc ∧
    ∀ i, enc.length ≤ i → i < SUN_PATH_MAX → addr.sun_path.getD i 1 = 0 := by
  rw [encodePath_eq] at henc
  by_cases h : SUN_PATH_MAX ≤ enc.length
  · rw [if_pos h] at henc
    exact absurd henc (by simp)
  · rw [if_neg h] at henc
    have hlt : enc.length < SUN_PATH_MAX := Nat.lt_of_not_le h
    obtain rfl : addr =
        { sun_family := AF_UNIX,
          sun_path := enc ++ List.replicate (SUN_PATH_MAX - enc.length) 0 } := by
      cases henc; rfl
    refine ⟨rfl, by simp [Nat.add_sub_cancel' (Nat.le_of_lt hlt)], by simp, ?_⟩
    intro i hi hilt
    rw [List.getD_append_right _ _ _ _ hi]
    have hbound : i - enc.length < SUN_PATH_MAX - enc.length := by omega
    rw [List.getD_eq_getElem _ _ (by simpa using hbound)]
    simp

/-- C7 witness: encoding the 2-byte path `"hi"` yields family 1 and a
buffer whose bytes 2..107 are all zero. -/
theorem C7_encode_zero_fill_witness :
    (Sockaddr.mk AF_UNIX ([104, 105] ++ List.replicate 106 0)).sun_family = AF_UNIX ∧
    (Sockaddr.mk AF_UNIX ([104, 105] ++ List.replicate 106 0)).sun_path.length = SUN_PATH_MAX ∧
    (Sockaddr.mk AF_UNIX ([104, 105] ++ List.replicate 106 0)).sun_path.take 2 = [104, 105] ∧
    ∀ i, 2 ≤ i → i < SUN_PATH_MAX →
      (Sockaddr.mk AF_UNIX ([104, 105] ++ List.replicate 106 0)).sun_path.getD i 1 = 0 := by
  have h := C7_encode_zero_fill [104, 105]
    (Sockaddr.mk AF_UNIX ([104, 105] ++ List.replicate 106 0)) (by rfl)
  simpa using h

/-- C2, counterexample: in the fallback connector of
`win_unix_asyncio.py`, a nonzero connect return whose last error is
`WSAEWOULDBLOCK` (10035) IS treated as an error — the socket is closed and
`ConnectFailed 10035` is raised instead of awaiting any readiness event. -/
theorem C2_wua_wouldblock_raises :
    wua_open_unix_connection [97]
        { socketOk := true, socketErr := 0, connectRet := 1,
          connectErr := 10035, wrapOk := true } =
      { result := .connectFailed 10035, sockClosed := true } := by
  decide

/-- C2 (amended): in `open_unix_connection_win` a nonzero connect return
with last error `WSAEWOULDBLOCK` (10035) is not an error — the operation
proceeds to await completion via the readiness event — while any other
nonzero result raises ConnectFailed with the native code before any wait.
In the fallback connector of `win_unix_asyncio.py` every nonzero connect
return raises ConnectFailed with the native code (that path performs no
readiness wait at all). -/
theorem C2_wouldblock_not_error (enc : List Nat) (o : ConnOracle) (o2 : WuaConnOracle)
    (hlen : enc.length < SUN_PATH_MAX)
    (hce : o.createEventOk = true) (hsel : o.eventSelectRet = 0)
    (hpro : o.proactorPresent = true) (hret : o.connectRet ≠ 0) :
    ((o.connectErr = WSAEWOULDBLOCK →
        (open_unix_connection_win enc o).waited = true ∧
        ConnResult.isConnectFailed (open_unix_connection_win enc o).result = false) ∧
     (o.connectErr ≠ WSAEWOULDBLOCK →
        (open_unix_connection_win enc o).result = .connectFailed o.connectErr ∧
        (open_unix_connection_win enc o).waited = false)) ∧
    (o2.socketOk = true → o2.connectRet ≠ 0 →
      (wua_open_unix_connection enc o2).result = .connectFailed o2.connectErr) := by
  refine ⟨⟨?_, ?_⟩, ?_⟩
  · intro herr
    unfold open_unix_connection_win
    simp only [hce, hsel, hpro, herr, Bool.not_true, bne_self_eq_false,
      Bool.and_false, if_neg (Nat.not_le.mpr hlen)]
    norm_num
    split
    all_goals first
    | exact ⟨rfl, rfl⟩
    | (split <;> exact ⟨rfl, rfl⟩)
  · intro herr
    unfold open_unix_connection_win
    simp [hce, hsel, Nat.not_le.mpr hlen, bne_iff_ne, hret, herr]
  · intro hsock hret2
    unfold wua_open_unix_connection
    simp [hsock, Nat.not_le.mpr hlen, bne_iff_ne, hret2]

/-- C2 witness: concrete instantiation — would-block proceeds to the wait
in the afunix connector; a refused connect in the fallback connector
raises with its native code. -/
theorem C2_wouldblock_not_error_witness :
    ((10035 = WSAEWOULDBLOCK →
        (open_unix_connection_win [97]
          { connOracleAllOk with connectRet := 1, connectErr := 10035 }).waited = true ∧
        ConnResult.isConnectFailed
          (open_unix_connection_win [97]
            { connOracleAllOk with connectRet := 1, connectErr := 10035 }).result = false) ∧
     (10035 ≠ WSAEWOULDBLOCK →
        (open_unix_connection_win [97]
          { connOracleAllOk with connectRet := 1, connectErr := 10035 }).result =
            .connectFailed 10035 ∧
        (open_unix_connection_win [97]
          { connOracleAllOk with connectRet := 1, connectErr := 10035 }).waited = false)) ∧
    (true = true → (1 : Nat) ≠ 0 →
      (wua_open_unix_connection [97]
        { socketOk := true, socketErr := 0, connectRet := 1,
          connectErr := 10061, wrapOk := true }).result = .connectFailed 10061) :=
  C2_wouldblock_not_error [97]
    { connOracleAllOk with connectRet := 1, connectErr := 10035 }
    { socketOk := true, socketErr := 0, connectRet := 1,
      connectErr := 10061, wrapOk := true }
    (by decide) rfl rfl rfl (by decide)

/-- C3, counterexample: with two connections queued, one accept-ready
wake-up of `WindowsUnixServer._accept_loop` performs a single accept and
dispatches only the first connection before waiting again, instead of
draining until no connection is ready. -/
theorem C3_wua_single_accept :
    wuaWakeup [7, 8] = [.acceptCall, .createTask 7] ∧
    (wuaWakeup [7, 8]).filterMap taskOf ≠ [7, 8] := by
  decide

/-- C3 (amended): in `AFUnixServerWin._accept_loop` an accept-ready
wake-up drains the queue — accept is called once per queued connection
plus once more to observe no-connection, each accepted handle is
dispatched in order via `create_task`, and no handler is awaited inline.
`WindowsUnixServer._accept_loop` instead performs exactly one accept per
wake-up, dispatching at most the first queued connection (also without
awaiting the handler) before suspending again. -/
theorem C3_drain_until_none (ev : Nat) (q : List Nat)
    (hacc : ev &&& FD_ACCEPT ≠ 0) (hcl : ev &&& FD_CLOSE = 0) :
    ((afunixWakeup ev q).filterMap taskOf = q ∧
     (afunixWakeup ev q).countP isAcceptCall = q.length + 1 ∧
     (afunixWakeup ev q).countP isAwaitTask = 0) ∧
    ((wuaWakeup q).filterMap taskOf = q.take 1 ∧
     (wuaWakeup q).countP isAcceptCall = 1 ∧
     (wuaWakeup q).countP isAwaitTask = 0) := by
  have hw : afunixWakeup ev q = afunixDrain q := by
    unfold afunixWakeup
    simp [hcl, bne_iff_ne, hacc]
  refine ⟨⟨?_, ?_, ?_⟩, ?_, ?_, ?_⟩
  · rw [hw]; exact afunixDrain_tasks q
  · rw [hw]; exact afunixDrain_acceptCalls q
  · rw [hw]; exact afunixDrain_no_await q
  · cases q <;> simp [wuaWakeup, taskOf]
  · cases q <;> simp [wuaWakeup, List.countP_cons, isAcceptCall]
  · cases q <;> simp [wuaWakeup, List.countP_cons, isAwaitTask]

/-- C3 witness: a wake-up with mask `FD_ACCEPT` and two queued
connections. -/
theorem C3_drain_until_none_witness :
    ((afunixWakeup 8 [7, 9]).filterMap taskOf = [7, 9] ∧
     (afunixWakeup 8 [7, 9]).countP isAcceptCall = [7, 9].length + 1 ∧
     (afunixWakeup 8 [7, 9]).countP isAwaitTask = 0) ∧
    ((wuaWakeup [7, 9]).filterMap taskOf = [7, 9].take 1 ∧
     (wuaWakeup [7, 9]).countP isAcceptCall = 1 ∧
     (wuaWakeup [7, 9]).countP isAwaitTask = 0) :=
  C3_drain_until_none 8 [7, 9] (by decide) (by decide)

/-- C4: the claim says every failure path of the client connect releases
both the socket and the event.  The code violates it: when
`WSAEventSelect` fails (`_check_zero` raises), and likewise when
`WSAEnumNetworkEvents` fails after the wait, the raised `OSError`
propagates with only the event closed by the `finally` block — the socket
handle is never closed. -/
theorem C4_error_paths_leak_socket :
    open_unix_connection_win [97]
        { connOracleAllOk with eventSelectRet := 1, eventSelectErr := 10050 } =
      { result := .eventSelectFailed 10050, sockClosed := false,
        eventClosed := true, waited := false } ∧
    open_unix_connection_win [97]
        { connOracleAllOk with enumRet := 1, enumErr := 10050 } =
      { result := .enumFailed 10050, sockClosed := false,
        eventClosed := true, waited := true } := by
  decide

/-- C5, counterexample: with `connect` returning 0 (immediate success) and
every native call succeeding, the connector still performs the readiness
wait before returning the endpoint — the wait is not skipped. -/
theorem C5_immediate_still_waits :
    open_unix_connection_win [97] connOracleAllOk =
      { result := .connected, sockClosed := false,
        eventClosed := true, waited := true } := by
  decide

/-- C5 (amended): after a connect that returns immediate success or
would-block, `open_unix_connection_win` always awaits the readiness event
once before returning; the wait is unconditional (skipped only when an
earlier failure aborts the call), not reserved to the in-progress case. -/
theorem C5_wait_unconditional (enc : List Nat) (o : ConnOracle)
    (hlen : enc.length < SUN_PATH_MAX)
    (hce : o.createEventOk = true) (hsel : o.eventSelectRet = 0)
    (hpro : o.proactorPresent = true)
    (hconn : o.connectRet = 0 ∨ o.connectErr = WSAEWOULDBLOCK) :
    (open_unix_connection_win enc o).waited = true := by
  unfold open_unix_connection_win
  rcases hconn with h | h <;>
    · simp only [hce, hsel, hpro, h, Bool.not_true, bne_self_eq_false,
        Bool.false_and, Bool.and_false, if_neg (Nat.not_le.mpr hlen)]
      norm_num
      split
      all_goals first
      | rfl
      | (split <;> rfl)

/-- C5 witness: the all-success oracle with immediate connect completion
satisfies the amended claim. -/
theorem C5_wait_unconditional_witness :
    (open_unix_connection_win [97] connOracleAllOk).waited = true :=
  C5_wait_unconditional [97] connOracleAllOk (by decide) rfl rfl rfl (Or.inl rfl)

/-- C6 (confirmed): `AFUnixStream.close` is idempotent — the first close
reaches the terminal closed state, and closing an already-closed stream
performs no socket action, raises nothing and leaves the state unchanged. -/
theorem C6_close_idempotent (s : AFUnixStream) :
    (s.close.1).closed = true ∧
    (s.close.1).close = (s.close.1, ([] : List StreamAction)) := by
  cases s with
  | mk c => cases c <;> simp [AFUnixStream.close]

/-- C8 (confirmed): constructing the server on a path with a pre-existing
filesystem entry and `unlink_existing = True` removes the stale entry
strictly before `bind` is attempted, and (when the native event calls
succeed) server construction succeeds — the pre-existing file does not
cause a bind failure. -/
theorem C8_unlink_before_bind (enc : List Nat) (o : InitOracle)
    (hlen : enc.length < SUN_PATH_MAX)
    (hce : o.createEventOk = true) (hsel : o.eventSelectRet = 0) :
    (AFUnixServerWin.init enc true true o).result = .ok () ∧
    (AFUnixServerWin.init enc true true o).trace =
      [.unlinkCall, .bindCall, .listenCall, .createEventCall, .eventSelectCall] := by
  unfold AFUnixServerWin.init
  simp [hce, hsel, Nat.not_le.mpr hlen]

/-- C8 witness: a 3-byte path, stale entry present, native calls succeed. -/
theorem C8_unlink_before_bind_witness :
    (AFUnixServerWin.init [116, 109, 112] true true
      { createEventOk := true, eventSelectRet := 0 }).result = .ok () ∧
    (AFUnixServerWin.init [116, 109, 112] true true
      { createEventOk := true, eventSelectRet := 0 }).trace =
      [.unlinkCall, .bindCall, .listenCall, .createEventCall, .eventSelectCall] :=
  C8_unlink_before_bind [116, 109, 112]
    { createEventOk := true, eventSelectRet := 0 } (by decide) rfl rfl

/-- C9 (confirmed): `recv` on an already-closed stream returns the empty
byte string at once, raising nothing and performing no socket action,
whatever size was requested and whatever bytes the socket would yield. -/
theorem C9_recv_on_closed (s : AFUnixStream) (n : Nat) (sockBytes : List Nat)
    (h : s.closed = true) :
    s.recv n sockBytes = ([], []) := by
  unfold AFUnixStream.recv
  simp [h]

/-- C9 witness: the default request size 4096 on a closed stream whose
socket would have 3 bytes pending. -/
theorem C9_recv_on_closed_witness :
    AFUnixStream.recv { closed := true } 4096 [1, 2, 3] = ([], []) :=
  C9_recv_on_closed { closed := true } 4096 [1, 2, 3] rfl

/-- C10 (confirmed): `AFUnixServerWin.start` succeeds at most once — from
the freshly-constructed state it stores the accept-loop task, and a second
call raises `RuntimeError("Server already started")` rather than spawning
a second task. -/
theorem C10_start_at_most_once (s : ServerRunState) (t1 t2 : Nat)
    (h : s.task = none) :
    AFUnixServerWin.start s t1 = .ok { task := some t1 } ∧
    AFUnixServerWin.start { task := some t1 } t2 =
      .error "Server already started" := by
  unfold AFUnixServerWin.start
  simp [h]

/-- C10 witness: starting twice from the fresh state with task ids 5, 9. -/
theorem C10_start_at_most_once_witness :
    AFUnixServerWin.start { task := none } 5 = .ok { task := some 5 } ∧
    AFUnixServerWin.start { task := some 5 } 9 =
      .error "Server already started" :=
  C10_start_at_most_once { task := none } 5 9 rfl

end Aiowuds
